import Mathlib

/-!
Shallow embedding of the A32NX Flight Warning Computer core
(`src/flybywire-aircraft-a320-neo/html_ui/Pages/A32NX_Core/A32NX_FWC.js`).

Signals read from the simulator bus become explicit input records; the
mutable fields of the `A32NX_FWC` object become explicit state records, and
each `_update*` method becomes a pure function from state and inputs to a
new state together with the bus values written during the tick.  JavaScript
numbers are modelled as rationals (`ℚ`); the `NaN` initial value of
`previousTargetAltitude` and the `null` initial value of `toConfigTest`
are modelled with `Option` (`none` compares unequal to every `some _`,
matching `NaN !== x` and `null` being falsy).
-/

/-- Modelled from the spec: the class `NXLogic_MemoryNode` is not under
`src/` (only its call sites in `A32NX_FWC.js` are).  Per spec §4.2 it is a
set/reset latch whose state is one boolean `output`; `write(set, reset)`
returns the new output, with reset priority:
`(T,F)→true`, `(F,T)→false`, `(F,F)→unchanged`, `(T,T)→false`.
The constructor argument seen at the call sites is the initial output. -/
def NXLogic_MemoryNode.write (s : Bool) (setIn resetIn : Bool) : Bool :=
  if resetIn then false else if setIn then true else s

/-- Modelled from the spec: the class `NXLogic_ConfirmNode` is not under
`src/` (only its call sites in `A32NX_FWC.js` are).  Per spec §4.1 it is a
time-delay filter: state is the immutable `confirmationDuration` (seconds)
and polarity `confirmOnTrue`, plus the mutable `elapsed` accumulator. -/
structure NXLogic_ConfirmNode where
  confirmationDuration : ℚ
  confirmOnTrue : Bool
  elapsed : ℚ
deriving DecidableEq, Repr

/-- Modelled from the spec (§4.1): if the polarity-adjusted input is false,
reset `elapsed` to 0 and return false; otherwise accumulate
`elapsed += dt` and return whether `elapsed ≥ confirmationDuration`
(a non-positive duration acts as a pass-through).  All nodes instantiated
by the FWC use the confirm-on-true polarity. -/
def NXLogic_ConfirmNode.write (n : NXLogic_ConfirmNode) (input : Bool) (dt : ℚ) :
    NXLogic_ConfirmNode × Bool :=
  let adjusted := if n.confirmOnTrue then input else !input
  if adjusted then
    let e := n.elapsed + dt
    ({ n with elapsed := e }, decide (n.confirmationDuration ≤ e))
  else
    ({ n with elapsed := 0 }, false)

/-- Inputs read from the bus by `_updateLandingMemo` each tick.
`flightPhase` mirrors `this.flightPhase`, read from
`L:A32NX_FWC_FLIGHT_PHASE` at the start of `update`. -/
structure LdgInputs where
  flightPhase : ℤ
  radioHeight : ℚ
  gearPctExtended : ℚ
  dt : ℚ
deriving DecidableEq, Repr

/-- Mutable FWC fields used by `_updateLandingMemo`: the two confirm nodes
`memoLdgMemo_conf01` (1 s), `memoLdgMemo_conf02` (10 s), and the two memory
nodes `memoLdgMemo_memory1` (init false), `memoLdgMemo_below2000ft`
(init true). -/
structure LdgState where
  conf01 : NXLogic_ConfirmNode
  memory1 : Bool
  conf02 : NXLogic_ConfirmNode
  below2000ft : Bool
deriving DecidableEq, Repr

/-- Result of one `_updateLandingMemo` tick: the new node states, the
`L:A32NX_FWC_LDGMEMO` value written, and the local `invalidRadioMemo`. -/
structure LdgResult where
  state : LdgState
  ldgMemo : Bool
  invalidRadioMemo : Bool
deriving DecidableEq, Repr

/-- Embedding of `_updateLandingMemo` (A32NX_FWC.js lines 98–117).
`radioHeightInvalid` is the literal constant `false` of line 100.  The JS
call `memoLdgMemo_conf02.write(radioHeightInvalid && gearDownlocked)` omits
the `dt` argument; its input is `false`, so the missing `dt` is never used
and is passed through here. -/
def updateLandingMemo (st : LdgState) (inp : LdgInputs) : LdgResult :=
  let radioHeight := inp.radioHeight
  let radioHeightInvalid := false
  let gearDownlocked := decide (inp.gearPctExtended > 95 / 100)
  let setBelow2000ft := decide (radioHeight < 2000)
  let resetBelow2000ft := decide (radioHeight > 2200)
  let memo2 := NXLogic_MemoryNode.write st.below2000ft setBelow2000ft resetBelow2000ft
  let c01 := st.conf01.write (!radioHeightInvalid && resetBelow2000ft) inp.dt
  let setLandingMemo := c01.2
  let resetLandingMemo :=
    !(decide (inp.flightPhase = 7) || decide (inp.flightPhase = 8) || decide (inp.flightPhase = 6))
  let memo1 := NXLogic_MemoryNode.write st.memory1 setLandingMemo resetLandingMemo
  let showInApproach := memo1 && memo2 && decide (inp.flightPhase = 6)
  let c02 := st.conf02.write (radioHeightInvalid && gearDownlocked) inp.dt
  let invalidRadioMemo := c02.2
  let ldgMemo := showInApproach || invalidRadioMemo ||
    decide (inp.flightPhase = 8) || decide (inp.flightPhase = 7)
  { state := { conf01 := c01.1, memory1 := memo1, conf02 := c02.1, below2000ft := memo2 },
    ldgMemo := ldgMemo,
    invalidRadioMemo := invalidRadioMemo }

/-- Folding `_updateLandingMemo` over a sequence of ticks. -/
def runLandingMemo (st : LdgState) : List LdgInputs → LdgState
  | [] => st
  | inp :: rest => runLandingMemo (updateLandingMemo st inp).state rest

/-- The landing-memo node states as built by the `A32NX_FWC` constructor:
`memoLdgMemo_conf01 = new NXLogic_ConfirmNode(1, true)`,
`memoLdgMemo_memory1 = new NXLogic_MemoryNode(false)`,
`memoLdgMemo_conf02 = new NXLogic_ConfirmNode(10, true)`,
`memoLdgMemo_below2000ft = new NXLogic_MemoryNode(true)`. -/
def ldgSt0 : LdgState :=
  { conf01 := ⟨1, true, 0⟩, memory1 := false, conf02 := ⟨10, true, 0⟩, below2000ft := true }

/-- A sample tick with radio height inside the [2000, 2200] dead band. -/
def ldgInpBand : LdgInputs :=
  { flightPhase := 6, radioHeight := 2100, gearPctExtended := 0, dt := 1 / 10 }

/-- A sample radio-height oscillation between 1999 ft and 2001 ft. -/
def ldgOsc : List LdgInputs :=
  [{ flightPhase := 6, radioHeight := 1999, gearPctExtended := 0, dt := 1 / 10 },
   { flightPhase := 6, radioHeight := 2001, gearPctExtended := 0, dt := 1 / 10 },
   { flightPhase := 6, radioHeight := 1999, gearPctExtended := 0, dt := 1 / 10 },
   { flightPhase := 6, radioHeight := 2001, gearPctExtended := 0, dt := 1 / 10 }]

/-- Inputs of `_updateTakeoffMemo`.  `flightPhase` mirrors
`this.flightPhase`; `toConfigTest` mirrors `this.toConfigTest`, which is
`null` at construction (modelled `none`) and set by `_updateButtons`
earlier in the same tick; only the value `some true` is truthy. -/
structure ToInputs where
  flightPhase : ℤ
  toConfigTest : Option Bool
  eng1N1 : ℚ
  eng2N1 : ℚ
  dt : ℚ
deriving DecidableEq, Repr

/-- Mutable FWC fields used by `_updateTakeoffMemo`:
`memoTo_conf01 = new NXLogic_ConfirmNode(120, true)` and
`memoTo_memo = new NXLogic_MemoryNode(false)`. -/
structure ToState where
  memoTo_conf01 : NXLogic_ConfirmNode
  memoTo_memo : Bool
deriving DecidableEq, Repr

/-- Result of one `_updateTakeoffMemo` tick: new node states and the
`L:A32NX_FWC_TOMEMO` value written. -/
structure ToResult where
  state : ToState
  toMemo : Bool
deriving DecidableEq, Repr

/-- Embedding of `_updateTakeoffMemo` (A32NX_FWC.js lines 80–96). -/
def updateTakeoffMemo (st : ToState) (inp : ToInputs) : ToResult :=
  let setFlightPhaseMemo := decide (inp.flightPhase = 2) && decide (inp.toConfigTest = some true)
  let resetFlightPhaseMemo := decide (inp.flightPhase = 10) || decide (inp.flightPhase = 3) ||
    decide (inp.flightPhase = 1) || decide (inp.flightPhase = 6)
  let flightPhaseMemo := NXLogic_MemoryNode.write st.memoTo_memo setFlightPhaseMemo resetFlightPhaseMemo
  let eng1NotRunning := decide (inp.eng1N1 < 15)
  let eng2NotRunning := decide (inp.eng2N1 < 15)
  let c01 := st.memoTo_conf01.write (!eng1NotRunning && !eng2NotRunning) inp.dt
  let toTimerElapsed := c01.2
  let toMemo := flightPhaseMemo || (decide (inp.flightPhase = 2) && toTimerElapsed)
  { state := { memoTo_conf01 := c01.1, memoTo_memo := flightPhaseMemo }, toMemo := toMemo }

/-- The takeoff-memo node states as built by the `A32NX_FWC` constructor. -/
def toSt0 : ToState := { memoTo_conf01 := ⟨120, true, 0⟩, memoTo_memo := false }

/-- A tick in a flight phase (4) outside both the memo set condition and
the reset phase enumeration {10, 3, 1, 6}. -/
def toInpPhase4 : ToInputs :=
  { flightPhase := 4, toConfigTest := some false, eng1N1 := 80, eng2N1 := 80, dt := 1 / 10 }

/-- Inputs of `_updateButtons`: the raw momentary bus flags, the current
bus values of the two FWC output flags (their writes are conditional, so
the prior bus value can persist), and the four master warning/caution
button signals. -/
structure BtnInputs where
  btnToConfig : Bool
  fwcToConfig : Bool
  btnRcl : Bool
  fwcRecall : Bool
  masterWarnL : Bool
  masterWarnR : Bool
  masterCautL : Bool
  masterCautR : Bool
deriving DecidableEq, Repr

/-- Mutable FWC fields used by `_updateButtons`: `toConfigTest` (`null` at
construction), `flightPhaseEndedPulse`, the state of
`memoFlightPhaseInhibOvrd_memo` (init false), `warningPressed`,
`cautionPressed`. -/
structure BtnState where
  toConfigTest : Option Bool
  flightPhaseEndedPulse : Bool
  inhibOvrd : Bool
  warningPressed : Bool
  cautionPressed : Bool
deriving DecidableEq, Repr

/-- Result of one `_updateButtons` tick: the new state and the bus values
of the raw button flags and the FWC output flags after the tick. -/
structure BtnResult where
  state : BtnState
  btnToConfig : Bool
  fwcToConfig : Bool
  btnRcl : Bool
  fwcRecall : Bool
  inhibOvrd : Bool
deriving DecidableEq, Repr

/-- Embedding of `_updateButtons` (A32NX_FWC.js lines 49–78).  A bus flag
not written during the tick keeps its incoming value; in particular
`L:A32NX_FWC_TOCONFIG` and `L:A32NX_FWC_RECALL` are only ever written to 1
(on a press tick), never back to 0. -/
def updateButtons (st : BtnState) (inp : BtnInputs) : BtnResult :=
  let btnToConfigOut := if inp.btnToConfig then false else inp.btnToConfig
  let toConfigTestNew :=
    if inp.btnToConfig then some true
    else if st.toConfigTest = some true then some false
    else st.toConfigTest
  let fwcToConfigOut := if inp.btnToConfig then true else inp.fwcToConfig
  let recallPressed := inp.btnRcl
  let btnRclOut := if inp.btnRcl then false else inp.btnRcl
  let fwcRecallOut := if inp.btnRcl then true else inp.fwcRecall
  let inhibOverride := NXLogic_MemoryNode.write st.inhibOvrd recallPressed st.flightPhaseEndedPulse
  let warningPressedNew := inp.masterWarnL || inp.masterWarnR
  let cautionPressedNew := inp.masterCautL || inp.masterCautR
  { state :=
      { st with
        toConfigTest := toConfigTestNew
        inhibOvrd := inhibOverride
        warningPressed := warningPressedNew
        cautionPressed := cautionPressedNew },
    btnToConfig := btnToConfigOut, fwcToConfig := fwcToConfigOut,
    btnRcl := btnRclOut, fwcRecall := fwcRecallOut, inhibOvrd := inhibOverride }

/-- The button state as built by the `A32NX_FWC` constructor (after the
`_resetPulses` of the current tick, so `flightPhaseEndedPulse = false`). -/
def btnSt0 : BtnState :=
  { toConfigTest := none, flightPhaseEndedPulse := false, inhibOvrd := false,
    warningPressed := false, cautionPressed := false }

/-- Tick 1 inputs: both raw button flags freshly pressed, FWC output flags
initially low. -/
def btnInpPress : BtnInputs :=
  { btnToConfig := true, fwcToConfig := false, btnRcl := true, fwcRecall := false,
    masterWarnL := false, masterWarnR := false, masterCautL := false, masterCautR := false }

/-- The result of the press tick. -/
def btnTick1 : BtnResult := updateButtons btnSt0 btnInpPress

/-- Tick 2 inputs: no new press; the raw flags were cleared on tick 1 and
the FWC output flags carry their tick-1 bus values. -/
def btnInpIdle : BtnInputs :=
  { btnToConfig := btnTick1.btnToConfig, fwcToConfig := btnTick1.fwcToConfig,
    btnRcl := btnTick1.btnRcl, fwcRecall := btnTick1.fwcRecall,
    masterWarnL := false, masterWarnR := false, masterCautL := false, masterCautR := false }

/-- JavaScript `Math.abs`, written with an executable conditional so that
concrete runs of the monitor evaluate inside the kernel. -/
def mathAbs (x : ℚ) : ℚ := if x < 0 then -x else x

/-- The `Aircraft` enumeration referenced by `hasAltitudeConstraint`
(`this.aircraft == Aircraft.A320_NEO`); only the compared member is
needed. -/
inductive Aircraft where
  | a320Neo
deriving DecidableEq, Repr

/-- Inputs read by `_updateAltitudeWarning` each tick.  `shortAlertIn` and
`altDeviationIn` are the current bus values of
`L:A32NX_ALT_DEVIATION_SHORT` and `L:A32NX_ALT_DEVIATION` (their writes
are conditional, so the incoming value can persist); `warningPressed`
mirrors `this.warningPressed`, set by `_updateButtons` earlier in the same
tick. -/
structure AltInputs where
  indicatedAltitude : ℚ
  shortAlertIn : Bool
  altDeviationIn : Bool
  warningPressed : Bool
  isGrounded : Bool
  altitudeConstraint : ℚ
  fcuAltitude : ℚ
  autoPilotAltitudeManaged : Bool
  targetIsConstraint : ℚ
  flapsHandleIndex : ℤ
  gearHandlePosition : Bool
  verticalMode : ℚ
  gearPosition : ℚ
  tcasState : ℚ
  ap1Active : Bool
  ap2Active : Bool
deriving DecidableEq, Repr

/-- Mutable FWC fields used by `_updateAltitudeWarning`.  `aircraft`
mirrors `this.aircraft`, which is never assigned anywhere in the
`A32NX_FWC` class, so it is `undefined` (modelled `none`) on every tick;
`previousTargetAltitude` starts as `NaN` (modelled `none`, which compares
unequal to every number, as `NaN !== x` does). -/
structure AltState where
  aircraft : Option Aircraft
  previousTargetAltitude : Option ℚ
  wasBellowThreshold : Bool
  wasAboveThreshold : Bool
  wasInRange : Bool
  wasReach200ft : Bool
deriving DecidableEq, Repr

/-- Result of one `_updateAltitudeWarning` tick: the new state and the bus
values of `L:A32NX_ALT_DEVIATION` and `L:A32NX_ALT_DEVIATION_SHORT` after
the tick. -/
structure AltResult where
  state : AltState
  altDeviation : Bool
  altDeviationShort : Bool
deriving DecidableEq, Repr

/-- Embedding of `hasAltitudeConstraint` (A32NX_FWC.js lines 210–217):
returns false only when `this.aircraft == Aircraft.A320_NEO`, the
autopilot altitude is managed, and
`L:AP_CURRENT_TARGET_ALTITUDE_IS_CONSTRAINT != 0`; true otherwise. -/
def hasAltitudeConstraint (st : AltState) (inp : AltInputs) : Bool :=
  if st.aircraft = some Aircraft.a320Neo then
    if inp.autoPilotAltitudeManaged && decide (inp.targetIsConstraint ≠ 0) then false
    else true
  else true

/-- Embedding of the `targetAltitude` computation (A32NX_FWC.js line 141):
`currentAltitudeConstraint && !this.hasAltitudeConstraint() ?
currentAltitudeConstraint : currentFCUAltitude`, with JavaScript number
truthiness modelled as being nonzero. -/
def targetAltitudeOf (st : AltState) (inp : AltInputs) : ℚ :=
  if inp.altitudeConstraint ≠ 0 ∧ hasAltitudeConstraint st inp = false then
    inp.altitudeConstraint
  else inp.fcuAltitude

/-- Embedding of the sequential history-flag updates of
`_updateAltitudeWarning` (A32NX_FWC.js lines 177–188) for a given
`delta`. -/
def altHistoryStep (st : AltState) (delta : ℚ) : AltState :=
  let below1 := if delta < 200 then true else st.wasBellowThreshold
  let above1 := if delta < 200 then false else st.wasAboveThreshold
  let reach1 := if delta < 200 then true else st.wasReach200ft
  let above2 := if 750 < delta then true else above1
  let below2 := if 750 < delta then false else below1
  let inRange1 := if 200 ≤ delta ∧ delta ≤ 750 then true else st.wasInRange
  { st with
    wasBellowThreshold := below2
    wasAboveThreshold := above2
    wasInRange := inRange1
    wasReach200ft := reach1 }

/-- Embedding of the gear/glideslope/TCAS early-exit condition of
`_updateAltitudeWarning` (A32NX_FWC.js lines 160–165):
`landingGearIsDown || glideSlopeCaptured || landingGearIsLockedDown ||
isTcasResolutionAdvisoryActive`. -/
def altGearExit (inp : AltInputs) : Bool :=
  let landingGearIsDown := decide (inp.flapsHandleIndex ≥ 1) && inp.gearHandlePosition
  let glideSlopeCaptured := decide (inp.verticalMode ≥ 30) && decide (inp.verticalMode ≤ 34)
  let landingGearIsLockedDown := decide (inp.gearPosition > 9 / 10)
  let tcasRA := decide (inp.tcasState > 1)
  landingGearIsDown || glideSlopeCaptured || landingGearIsLockedDown || tcasRA

/-- Embedding of the tail of `_updateAltitudeWarning` past the early-exit
returns (A32NX_FWC.js lines 175–207): the history update and the
three-branch output decision.  `dev1` and `short1` are the bus values of
`L:A32NX_ALT_DEVIATION` and `L:A32NX_ALT_DEVIATION_SHORT` as already
written earlier in the tick (grounded forcing and the prologue clear). -/
def altOutputStep (st : AltState) (inp : AltInputs) (dev1 short1 : Bool) : AltResult :=
  let target := targetAltitudeOf st inp
  let delta := mathAbs (inp.indicatedAltitude - target)
  let hist := altHistoryStep st delta
  let outs : Bool × Bool :=
    if hist.wasBellowThreshold && hist.wasReach200ft then
      if delta ≥ 200 then (true, short1)
      else if delta < 200 then (false, short1)
      else (dev1, short1)
    else if hist.wasAboveThreshold && decide (delta ≤ 750) && !hist.wasReach200ft then
      if !inp.ap1Active && !inp.ap2Active then (false, true)
      else (dev1, short1)
    else if decide (750 < delta) && hist.wasInRange && !hist.wasReach200ft then
      if 750 < delta then (true, short1)
      else if delta ≥ 750 then (false, short1)
      else (dev1, short1)
    else (dev1, short1)
  { state := hist, altDeviation := outs.1, altDeviationShort := outs.2 }

/-- Embedding of `_updateAltitudeWarning` (A32NX_FWC.js lines 119–208).
The early `return`s of the JS method become nested conditionals; a bus
flag not written on a path keeps its incoming value. -/
def updateAltitudeWarning (st : AltState) (inp : AltInputs) : AltResult :=
  let short1 := if inp.shortAlertIn then false else inp.shortAlertIn
  if inp.warningPressed then
    { state :=
        { st with
          wasBellowThreshold := false
          wasAboveThreshold := false
          wasInRange := false },
      altDeviation := false, altDeviationShort := short1 }
  else
    let dev1 := if inp.isGrounded then false else inp.altDeviationIn
    let target := targetAltitudeOf st inp
    if st.previousTargetAltitude ≠ some target then
      { state :=
          { st with
            previousTargetAltitude := some target
            wasBellowThreshold := false
            wasAboveThreshold := false
            wasInRange := false
            wasReach200ft := false },
        altDeviation := false, altDeviationShort := false }
    else
      if altGearExit inp then
        { state :=
            { st with
              wasBellowThreshold := false
              wasAboveThreshold := false
              wasInRange := false
              wasReach200ft := false },
          altDeviation := false, altDeviationShort := false }
      else
        altOutputStep st inp dev1 short1

/-- The conjunction of path conditions of `_updateAltitudeWarning` under
which none of the early-exit resets (warning button, target-altitude
change, gear/glideslope/TCAS) fires. -/
def altEarlyExitFree (st : AltState) (inp : AltInputs) : Bool :=
  !inp.warningPressed &&
  decide (st.previousTargetAltitude = some (targetAltitudeOf st inp)) &&
  !altGearExit inp

/-- The condition under which the current tick freshly writes
`L:A32NX_ALT_DEVIATION := true` (output branch 1 with `delta ≥ 200`, or
output branch 3), with the history flags already updated for this tick. -/
def deviationAsserted (st : AltState) (inp : AltInputs) : Bool :=
  let delta := mathAbs (inp.indicatedAltitude - targetAltitudeOf st inp)
  let hist := altHistoryStep st delta
  altEarlyExitFree st inp &&
    (if hist.wasBellowThreshold && hist.wasReach200ft then decide (delta ≥ 200)
     else if hist.wasAboveThreshold && decide (delta ≤ 750) && !hist.wasReach200ft then false
     else if decide (750 < delta) && hist.wasInRange && !hist.wasReach200ft then true
     else false)

/-- The condition under which the current tick freshly writes
`L:A32NX_ALT_DEVIATION_SHORT := true` (output branch 2 with both
autopilots off). -/
def shortReasserted (st : AltState) (inp : AltInputs) : Bool :=
  let delta := mathAbs (inp.indicatedAltitude - targetAltitudeOf st inp)
  let hist := altHistoryStep st delta
  altEarlyExitFree st inp &&
    !(hist.wasBellowThreshold && hist.wasReach200ft) &&
    (hist.wasAboveThreshold && decide (delta ≤ 750) && !hist.wasReach200ft) &&
    (!inp.ap1Active && !inp.ap2Active)

/-- Threading `_updateAltitudeWarning` over a sequence of ticks: the
`L:A32NX_ALT_DEVIATION` and `L:A32NX_ALT_DEVIATION_SHORT` values written by
one tick are the values read by the next. -/
def runAltWarning (st : AltState) (dev short : Bool) :
    List AltInputs → AltState × Bool × Bool
  | [] => (st, dev, short)
  | inp :: rest =>
    let r := updateAltitudeWarning st { inp with altDeviationIn := dev, shortAlertIn := short }
    runAltWarning r.state r.altDeviation r.altDeviationShort rest

/-- The altitude-warning state as built by the `A32NX_FWC` constructor:
`aircraft` undefined, `previousTargetAltitude = NaN`, all four history
flags false. -/
def altSt0 : AltState :=
  { aircraft := none, previousTargetAltitude := none, wasBellowThreshold := false,
    wasAboveThreshold := false, wasInRange := false, wasReach200ft := false }

/-- A tick with a nonzero selected constraint altitude (5000 ft), autopilot
altitude not managed, FCU-selected altitude 3000 ft. -/
def c1Inp : AltInputs :=
  { indicatedAltitude := 0, shortAlertIn := false, altDeviationIn := false,
    warningPressed := false, isGrounded := false, altitudeConstraint := 5000,
    fcuAltitude := 3000, autoPilotAltitudeManaged := false, targetIsConstraint := 1,
    flapsHandleIndex := 0, gearHandlePosition := false, verticalMode := 0,
    gearPosition := 0, tcasState := 0, ap1Active := false, ap2Active := false }

/-- A state whose `wasReach200ft` history flag is set, target settled at
10000 ft. -/
def c2St : AltState :=
  { aircraft := none, previousTargetAltitude := some 10000, wasBellowThreshold := true,
    wasAboveThreshold := false, wasInRange := false, wasReach200ft := true }

/-- A tick with the master-warning button pressed. -/
def c2Inp : AltInputs :=
  { indicatedAltitude := 10000, shortAlertIn := false, altDeviationIn := false,
    warningPressed := true, isGrounded := false, altitudeConstraint := 0,
    fcuAltitude := 10000, autoPilotAltitudeManaged := false, targetIsConstraint := 0,
    flapsHandleIndex := 0, gearHandlePosition := false, verticalMode := 0,
    gearPosition := 0, tcasState := 0, ap1Active := false, ap2Active := false }

/-- Cleared history with the target already settled at the FCU altitude of
10000 ft (so no target-change reset fires). -/
def c3St : AltState :=
  { aircraft := none, previousTargetAltitude := some 10000, wasBellowThreshold := false,
    wasAboveThreshold := false, wasInRange := false, wasReach200ft := false }

/-- A benign airborne tick at the given indicated altitude: fixed valid
target (FCU 10000 ft, no constraint), no reset condition, autopilots off,
not grounded. -/
def c3Inp (alt : ℚ) : AltInputs :=
  { indicatedAltitude := alt, shortAlertIn := false, altDeviationIn := false,
    warningPressed := false, isGrounded := false, altitudeConstraint := 0,
    fcuAltitude := 10000, autoPilotAltitudeManaged := false, targetIsConstraint := 0,
    flapsHandleIndex := 0, gearHandlePosition := false, verticalMode := 0,
    gearPosition := 0, tcasState := 0, ap1Active := false, ap2Active := false }

/-- A grounded tick (warning button not pressed, no other reset condition)
at indicated altitude 10300 ft against the settled 10000 ft target. -/
def c4Inp : AltInputs :=
  { indicatedAltitude := 10300, shortAlertIn := false, altDeviationIn := false,
    warningPressed := false, isGrounded := true, altitudeConstraint := 0,
    fcuAltitude := 10000, autoPilotAltitudeManaged := false, targetIsConstraint := 0,
    flapsHandleIndex := 0, gearHandlePosition := false, verticalMode := 0,
    gearPosition := 0, tcasState := 0, ap1Active := false, ap2Active := false }

/-! ## Theorems -/

/-- C5: For every stored state `s` of a `MemoryNode`, `write(true,false)`
returns and stores true, `write(false,true)` returns false,
`write(false,false)` returns `s` unchanged — and stays unchanged under
arbitrarily many repeated `write(false,false)` calls — and
`write(true,true)` returns false (reset priority). -/
theorem memoryNode_truth_table (s : Bool) (n : ℕ) :
    NXLogic_MemoryNode.write s true false = true ∧
    NXLogic_MemoryNode.write s false true = false ∧
    NXLogic_MemoryNode.write s false false = s ∧
    (fun x => NXLogic_MemoryNode.write x false false)^[n] s = s ∧
    NXLogic_MemoryNode.write s true true = false := by
  refine ⟨rfl, rfl, rfl, ?_, rfl⟩
  exact Function.iterate_fixed rfl n

/-- C9: On every tick with radio height in the dead band [2000 ft, 2200 ft]
the `below2000ft` latch keeps its previous value; and starting from a true
latch (its constructed initial value), any sequence of radio heights each
equal to 1999 ft or 2001 ft never toggles the latch away from true. -/
theorem below2000ft_hysteresis :
    (∀ (st : LdgState) (inp : LdgInputs), 2000 ≤ inp.radioHeight → inp.radioHeight ≤ 2200 →
      (updateLandingMemo st inp).state.below2000ft = st.below2000ft) ∧
    (∀ (st : LdgState) (l : List LdgInputs), st.below2000ft = true →
      (∀ i ∈ l, i.radioHeight = 1999 ∨ i.radioHeight = 2001) →
      (runLandingMemo st l).below2000ft = true) := by
  constructor
  · intro st inp h1 h2
    have hA : ¬ (inp.radioHeight < 2000) := not_lt.mpr h1
    have hB : ¬ (inp.radioHeight > 2200) := not_lt.mpr h2
    simp [updateLandingMemo, NXLogic_MemoryNode.write, hA, hB]
  · intro st l
    induction l generalizing st with
    | nil => intro hst _; exact hst
    | cons i rest ih =>
      intro hst hmem
      show (runLandingMemo (updateLandingMemo st i).state rest).below2000ft = true
      refine ih _ ?_ (fun j hj => hmem j (List.mem_cons_of_mem i hj))
      rcases hmem i (List.mem_cons_self i rest) with h | h
      · norm_num [updateLandingMemo, NXLogic_MemoryNode.write, h]
      · norm_num [updateLandingMemo, NXLogic_MemoryNode.write, h, hst]

/-- Witness for C9 at concrete inputs: a tick at 2100 ft keeps the latch,
and the 1999/2001 oscillation keeps it true from the constructed state. -/
theorem below2000ft_hysteresis_witness :
    (updateLandingMemo ldgSt0 ldgInpBand).state.below2000ft = ldgSt0.below2000ft ∧
    (runLandingMemo ldgSt0 ldgOsc).below2000ft = true :=
  ⟨below2000ft_hysteresis.1 ldgSt0 ldgInpBand (by norm_num [ldgInpBand])
      (by norm_num [ldgInpBand]),
   below2000ft_hysteresis.2 ldgSt0 ldgOsc rfl (by decide)⟩

/-- C10: since `radioHeightInvalid` is the constant `false` in every
landing-memo update, the `conf02` node's input is false and the
invalid-radio fallback memo never asserts; consequently the landing memo
output equals (approach latch ∧ below-2000ft latch ∧ phase = 6) ∨
phase = 7 ∨ phase = 8.  The hypothesis records that `memoLdgMemo_conf02`
is constructed with the confirm-on-true polarity. -/
theorem landingMemo_formula (st : LdgState) (inp : LdgInputs)
    (hpol : st.conf02.confirmOnTrue = true) :
    (updateLandingMemo st inp).invalidRadioMemo = false ∧
    (updateLandingMemo st inp).ldgMemo =
      ((updateLandingMemo st inp).state.memory1 &&
        (updateLandingMemo st inp).state.below2000ft && decide (inp.flightPhase = 6) ||
       decide (inp.flightPhase = 7) || decide (inp.flightPhase = 8)) := by
  constructor
  · simp [updateLandingMemo, NXLogic_ConfirmNode.write, hpol]
  · simp only [updateLandingMemo, NXLogic_ConfirmNode.write, hpol]
    cases h7 : decide (inp.flightPhase = 7) <;> cases h8 : decide (inp.flightPhase = 8) <;>
      simp [h7, h8]

/-- Witness for C10 at the constructed node states and a sample tick. -/
theorem landingMemo_formula_witness :
    (updateLandingMemo ldgSt0 ldgInpBand).invalidRadioMemo = false ∧
    (updateLandingMemo ldgSt0 ldgInpBand).ldgMemo =
      ((updateLandingMemo ldgSt0 ldgInpBand).state.memory1 &&
        (updateLandingMemo ldgSt0 ldgInpBand).state.below2000ft &&
        decide (ldgInpBand.flightPhase = 6) ||
       decide (ldgInpBand.flightPhase = 7) || decide (ldgInpBand.flightPhase = 8)) :=
  landingMemo_formula ldgSt0 ldgInpBand rfl

/-- C8 (amended wording kept to the claim): for every flight-phase code
outside the memo set condition (phase 2 with a truthy `toConfigTest`) and
outside the reset phase enumeration {10, 3, 1, 6}, one takeoff-memo update
leaves the flight-phase memo latch unchanged.  The embedding is a total
function, so the update is defined (never raises) for every phase code. -/
theorem takeoffMemo_unknown_phase (st : ToState) (inp : ToInputs)
    (hset : ¬ (inp.flightPhase = 2 ∧ inp.toConfigTest = some true))
    (h10 : inp.flightPhase ≠ 10) (h3 : inp.flightPhase ≠ 3)
    (h1 : inp.flightPhase ≠ 1) (h6 : inp.flightPhase ≠ 6) :
    (updateTakeoffMemo st inp).state.memoTo_memo = st.memoTo_memo := by
  have hs : (decide (inp.flightPhase = 2) && decide (inp.toConfigTest = some true)) = false := by
    by_cases h2 : inp.flightPhase = 2
    · have ht : inp.toConfigTest ≠ some true := fun ht => hset ⟨h2, ht⟩
      simp [ht]
    · simp [h2]
  simp [updateTakeoffMemo, NXLogic_MemoryNode.write, hs, h10, h3, h1, h6]

/-- Witness for C8 at a concrete unknown/unused phase code (4). -/
theorem takeoffMemo_unknown_phase_witness :
    (updateTakeoffMemo toSt0 toInpPhase4).state.memoTo_memo = toSt0.memoTo_memo :=
  takeoffMemo_unknown_phase toSt0 toInpPhase4 (by decide) (by decide) (by decide)
    (by decide) (by decide)

/-- C7 counterexample: press both buttons on tick 1, no press on tick 2.
The raw bus flags are cleared, but the `L:A32NX_FWC_TOCONFIG` and
`L:A32NX_FWC_RECALL` outputs are still 1 after tick 2 — contradicting the
claim that they return to false on the following tick. -/
theorem fwcButtonFlags_not_one_tick :
    btnInpPress.btnToConfig = true ∧ btnInpPress.btnRcl = true ∧
    btnInpIdle.btnToConfig = false ∧ btnInpIdle.btnRcl = false ∧
    (updateButtons btnTick1.state btnInpIdle).fwcToConfig = true ∧
    (updateButtons btnTick1.state btnInpIdle).fwcRecall = true := by
  decide

/-- C7 amended: on every tick the raw bus flags end false (cleared when
consumed); the FWC TOCONFIG/RECALL outputs are set to true on a press tick
and otherwise keep their incoming bus value — they are never written back
to false by the core.  The internal `toConfigTest` field is the one-tick
pulse: set on the press tick and reverted on the next tick without a
press. -/
theorem buttons_write_then_consume (st : BtnState) (inp : BtnInputs) :
    (updateButtons st inp).btnToConfig = false ∧
    (updateButtons st inp).btnRcl = false ∧
    (updateButtons st inp).fwcToConfig = (inp.btnToConfig || inp.fwcToConfig) ∧
    (updateButtons st inp).fwcRecall = (inp.btnRcl || inp.fwcRecall) ∧
    (updateButtons st inp).state.toConfigTest =
      (if inp.btnToConfig then some true
       else if st.toConfigTest = some true then some false
       else st.toConfigTest) := by
  cases hc : inp.btnToConfig <;> cases hr : inp.btnRcl <;>
    simp [updateButtons, hc, hr]

/-- C1 counterexample: with the constraint altitude active (5000 ft,
nonzero) and the autopilot altitude not managed, the target altitude used
by the monitor is the FCU-selected altitude (3000 ft), not the constraint
altitude — the claim says the constraint should win in exactly this
case. -/
theorem targetAltitude_claim_counterexample :
    c1Inp.altitudeConstraint ≠ 0 ∧ c1Inp.autoPilotAltitudeManaged = false ∧
    targetAltitudeOf altSt0 c1Inp ≠ c1Inp.altitudeConstraint ∧
    targetAltitudeOf altSt0 c1Inp = c1Inp.fcuAltitude := by
  decide

/-- C1 amended: the target altitude is the selected constraint altitude iff
the constraint value is truthy (nonzero) and `this.aircraft` equals
`Aircraft.A320_NEO` and the autopilot altitude is managed and the
current-target-is-constraint flag is nonzero; in every other case it is the
FCU-selected altitude.  Since the FWC never assigns `this.aircraft`, on
every actual tick the FCU-selected altitude is used. -/
theorem targetAltitude_selection (st : AltState) (inp : AltInputs) :
    targetAltitudeOf st inp =
      if inp.altitudeConstraint ≠ 0 ∧ st.aircraft = some Aircraft.a320Neo ∧
          inp.autoPilotAltitudeManaged = true ∧ inp.targetIsConstraint ≠ 0 then
        inp.altitudeConstraint
      else inp.fcuAltitude := by
  by_cases hc : inp.altitudeConstraint ≠ 0 <;>
    by_cases ha : st.aircraft = some Aircraft.a320Neo <;>
      cases hm : inp.autoPilotAltitudeManaged <;>
        by_cases hf : inp.targetIsConstraint ≠ 0 <;>
          simp [targetAltitudeOf, hasAltitudeConstraint, hc, ha, hm, hf]

/-- C2 counterexample: a master-warning press does not clear the
`wasReach200ft` history flag — starting from a state with it set, it is
still set after the press tick, contradicting the claim that all four
history flags are cleared. -/
theorem warningButton_reset_counterexample :
    c2Inp.warningPressed = true ∧
    (updateAltitudeWarning c2St c2Inp).state.wasReach200ft = true := by
  decide

/-- C2 amended: on any tick with the master-warning button pressed, the
altitude-deviation evaluation clears three of the four history flags
(`wasBellowThreshold`, `wasAboveThreshold`, `wasInRange`), leaves
`wasReach200ft` (and `previousTargetAltitude`) unchanged, and both output
flags are false at the end of the evaluation. -/
theorem warningButton_reset (st : AltState) (inp : AltInputs)
    (h : inp.warningPressed = true) :
    (updateAltitudeWarning st inp).state.wasBellowThreshold = false ∧
    (updateAltitudeWarning st inp).state.wasAboveThreshold = false ∧
    (updateAltitudeWarning st inp).state.wasInRange = false ∧
    (updateAltitudeWarning st inp).state.wasReach200ft = st.wasReach200ft ∧
    (updateAltitudeWarning st inp).state.previousTargetAltitude = st.previousTargetAltitude ∧
    (updateAltitudeWarning st inp).altDeviation = false ∧
    (updateAltitudeWarning st inp).altDeviationShort = false := by
  cases hs : inp.shortAlertIn <;> simp [updateAltitudeWarning, h, hs]

/-- Witness for C2 at a concrete press tick from a state with
`wasReach200ft` set. -/
theorem warningButton_reset_witness :
    (updateAltitudeWarning c2St c2Inp).state.wasBellowThreshold = false ∧
    (updateAltitudeWarning c2St c2Inp).state.wasAboveThreshold = false ∧
    (updateAltitudeWarning c2St c2Inp).state.wasInRange = false ∧
    (updateAltitudeWarning c2St c2Inp).state.wasReach200ft = c2St.wasReach200ft ∧
    (updateAltitudeWarning c2St c2Inp).state.previousTargetAltitude =
      c2St.previousTargetAltitude ∧
    (updateAltitudeWarning c2St c2Inp).altDeviation = false ∧
    (updateAltitudeWarning c2St c2Inp).altDeviationShort = false :=
  warningButton_reset c2St c2Inp rfl

/-- C3 counterexample: from cleared history with the target settled at
10000 ft, the delta sequence 150 → 900 → 500 (indicated 10150, 10900,
10500) leaves the persistent deviation flag false after the third tick —
the claim says it is asserted via branch 3.  The first tick's
`delta < 200` sets `wasReach200ft`, which blocks branches 2 and 3, and the
band 200–750 is never visited before the 900 tick, so `wasInRange` is
false there. -/
theorem deltaSequence_150_900_500_counterexample :
    mathAbs ((c3Inp 10150).indicatedAltitude - targetAltitudeOf c3St (c3Inp 10150)) = 150 ∧
    mathAbs ((c3Inp 10900).indicatedAltitude - targetAltitudeOf c3St (c3Inp 10900)) = 900 ∧
    mathAbs ((c3Inp 10500).indicatedAltitude - targetAltitudeOf c3St (c3Inp 10500)) = 500 ∧
    (runAltWarning c3St false false [c3Inp 10150, c3Inp 10900, c3Inp 10500]).2.1 = false := by
  norm_num [runAltWarning, updateAltitudeWarning, altGearExit, altOutputStep,
    altHistoryStep, targetAltitudeOf, hasAltitudeConstraint, mathAbs, c3St, c3Inp]

/-- C3 amended: the delta sequence 150 → 900 → 500 leaves the persistent
deviation flag false (the first tick sets `wasReach200ft`, which disables
branch 3, and `delta = 500` fails branch 3's `delta > 750` test anyway); a
sequence that first visits the 200–750 band and then re-widens past 750
without ever coming within 200 ft — e.g. delta 500 → 900 — asserts the
persistent flag via branch 3. -/
theorem deltaSequence_branch3 :
    (runAltWarning c3St false false [c3Inp 10150, c3Inp 10900, c3Inp 10500]).2.1 = false ∧
    (runAltWarning c3St false false [c3Inp 10500, c3Inp 10900]).2.1 = true := by
  norm_num [runAltWarning, updateAltitudeWarning, altGearExit, altOutputStep,
    altHistoryStep, targetAltitudeOf, hasAltitudeConstraint, mathAbs, c3St, c3Inp]

/-- C4 counterexample: on a grounded tick with no early-exit reset firing,
output branch 1 can re-assert the persistent deviation flag later in the
same evaluation, so the flag is true — not false — at the end of the
tick. -/
theorem grounded_tick_counterexample :
    c4Inp.isGrounded = true ∧ c4Inp.warningPressed = false ∧
    (updateAltitudeWarning c2St c4Inp).altDeviation = true := by
  norm_num [updateAltitudeWarning, altGearExit, altOutputStep, altHistoryStep,
    targetAltitudeOf, hasAltitudeConstraint, mathAbs, c2St, c4Inp]

/-- Helper: the state produced by the output stage is the updated history,
for any incoming bus-flag values. -/
theorem altOutputStep_state (st : AltState) (inp : AltInputs) (dev1 short1 : Bool) :
    (altOutputStep st inp dev1 short1).state =
      altHistoryStep st (mathAbs (inp.indicatedAltitude - targetAltitudeOf st inp)) := rfl

/-- Helper: when the short-alert bus value entering the output stage is
false (as arranged by the prologue clear), the short-alert value leaving it
is exactly the branch-2 re-assertion condition. -/
theorem altOutputStep_short_of_false (st : AltState) (inp : AltInputs) (dev1 : Bool) :
    (altOutputStep st inp dev1 false).altDeviationShort =
      (!((altHistoryStep st (mathAbs (inp.indicatedAltitude - targetAltitudeOf st inp))).wasBellowThreshold &&
          (altHistoryStep st (mathAbs (inp.indicatedAltitude - targetAltitudeOf st inp))).wasReach200ft) &&
       ((altHistoryStep st (mathAbs (inp.indicatedAltitude - targetAltitudeOf st inp))).wasAboveThreshold &&
          decide (mathAbs (inp.indicatedAltitude - targetAltitudeOf st inp) ≤ 750) &&
          !(altHistoryStep st (mathAbs (inp.indicatedAltitude - targetAltitudeOf st inp))).wasReach200ft) &&
       (!inp.ap1Active && !inp.ap2Active)) := by
  simp only [altOutputStep]
  generalize mathAbs (inp.indicatedAltitude - targetAltitudeOf st inp) = d
  generalize altHistoryStep st d = hh
  cases hb : hh.wasBellowThreshold <;> cases hr : hh.wasReach200ft <;>
    cases ha : hh.wasAboveThreshold <;> cases hi : hh.wasInRange <;>
      cases a1 : inp.ap1Active <;> cases a2 : inp.ap2Active <;>
        simp [hb, hr, ha, hi, a1, a2, apply_ite Prod.snd]

/-- Helper: when the persistent-deviation bus value entering the output
stage is false (as forced by the grounded check), the deviation value
leaving it is exactly the fresh assertion condition of branches 1 and 3. -/
theorem altOutputStep_dev_of_false (st : AltState) (inp : AltInputs) (short1 : Bool) :
    (altOutputStep st inp false short1).altDeviation =
      (let d := mathAbs (inp.indicatedAltitude - targetAltitudeOf st inp)
       let hh := altHistoryStep st d
       if hh.wasBellowThreshold && hh.wasReach200ft then decide (d ≥ 200)
       else if hh.wasAboveThreshold && decide (d ≤ 750) && !hh.wasReach200ft then false
       else if decide (750 < d) && hh.wasInRange && !hh.wasReach200ft then true
       else false) := by
  simp only [altOutputStep]
  generalize mathAbs (inp.indicatedAltitude - targetAltitudeOf st inp) = d
  generalize altHistoryStep st d = hh
  cases hb : hh.wasBellowThreshold <;> cases hr : hh.wasReach200ft <;>
    cases ha : hh.wasAboveThreshold <;> cases hi : hh.wasInRange <;>
      cases a1 : inp.ap1Active <;> cases a2 : inp.ap2Active <;>
        simp [hb, hr, ha, hi, a1, a2, apply_ite Prod.fst]

/-- Helper: the state after `_updateAltitudeWarning` as a function of the
branch taken; it depends on neither `isGrounded`, `shortAlertIn` nor
`altDeviationIn`. -/
theorem updateAltitudeWarning_state (st : AltState) (inp : AltInputs) :
    (updateAltitudeWarning st inp).state =
      (if inp.warningPressed then
        { st with wasBellowThreshold := false, wasAboveThreshold := false, wasInRange := false }
      else if st.previousTargetAltitude ≠ some (targetAltitudeOf st inp) then
        { st with
          previousTargetAltitude := some (targetAltitudeOf st inp)
          wasBellowThreshold := false
          wasAboveThreshold := false
          wasInRange := false
          wasReach200ft := false }
      else if altGearExit inp then
        { st with
          wasBellowThreshold := false
          wasAboveThreshold := false
          wasInRange := false
          wasReach200ft := false }
      else altHistoryStep st (mathAbs (inp.indicatedAltitude - targetAltitudeOf st inp))) := by
  cases hw : inp.warningPressed <;>
    by_cases hp : st.previousTargetAltitude = some (targetAltitudeOf st inp) <;>
      cases hg : altGearExit inp <;>
        simp [updateAltitudeWarning, altOutputStep_state, hw, hp, hg]

/-- C6: the incoming value of the short-alert flag is cleared at the very
start of `_updateAltitudeWarning` before any reset or output branch runs,
whatever branch is then taken; the flag's value after the tick equals the
fresh branch-2 re-assertion condition and does not depend on its incoming
value, so it is a one-tick pulse, never true on two consecutive
evaluations unless re-asserted in between. -/
theorem shortAlert_one_tick_pulse (st : AltState) (inp : AltInputs) :
    (updateAltitudeWarning st inp).altDeviationShort = shortReasserted st inp := by
  cases hs : inp.shortAlertIn <;> cases hw : inp.warningPressed <;>
    by_cases hp : st.previousTargetAltitude = some (targetAltitudeOf st inp) <;>
      cases hg : altGearExit inp <;>
        simp [updateAltitudeWarning, shortReasserted, altEarlyExitFree,
          altOutputStep_short_of_false, hs, hw, hp, hg]

/-- C4 amended: on a grounded tick the incoming persistent-deviation value
is discarded — the flag after the tick equals the fresh assertion condition
of this tick's output branches (so a later output branch in the same
evaluation can still leave it true) — and the grounded check does not
affect the state: the history flags evolve exactly as on a non-grounded
tick. -/
theorem groundedTick (st : AltState) (inp : AltInputs) (hgr : inp.isGrounded = true) :
    (updateAltitudeWarning st inp).altDeviation = deviationAsserted st inp ∧
    (updateAltitudeWarning st inp).state =
      (updateAltitudeWarning st { inp with isGrounded := false }).state := by
  constructor
  · cases hs : inp.shortAlertIn <;> cases hw : inp.warningPressed <;>
      by_cases hp : st.previousTargetAltitude = some (targetAltitudeOf st inp) <;>
        cases hg : altGearExit inp <;>
          simp [updateAltitudeWarning, deviationAsserted, altEarlyExitFree,
            altOutputStep_dev_of_false, hs, hw, hp, hg, hgr]
  · have e1 : altGearExit { inp with isGrounded := false } = altGearExit inp := rfl
    have e2 : targetAltitudeOf st { inp with isGrounded := false } = targetAltitudeOf st inp := rfl
    rw [updateAltitudeWarning_state, updateAltitudeWarning_state]
    simp [e1, e2]

/-- Witness for C4 at a concrete grounded tick. -/
theorem groundedTick_witness :
    (updateAltitudeWarning c2St c4Inp).altDeviation = deviationAsserted c2St c4Inp ∧
    (updateAltitudeWarning c2St c4Inp).state =
      (updateAltitudeWarning c2St { c4Inp with isGrounded := false }).state :=
  groundedTick c2St c4Inp rfl
